import Mathlib

/-!
Verification of the BtBmsDisplay BMS protocol decoder.

This file embeds the decoding, validation, frame-reassembly and
publishing logic of the repository (dual_bms_service.py, bms_reader.py,
parse_bms_data.py) as executable Lean definitions, and proves or refutes
the specification's claims about them.  Python ints become Nat/Int,
floats become rationals (the voltage values involved live on a millivolt
or centivolt grid where binary-float comparison against the literal
thresholds agrees with exact rational comparison), byte strings become
List Nat, and fallible parses become Option.
-/

namespace BtBms

/-- Big-endian 16-bit value from two bytes (struct format character H). -/
def be16 (hi lo : ℕ) : ℕ := hi * 256 + lo

/-- Interpretation of a 16-bit raw value as a signed two's-complement
integer (struct format character h). -/
def toSigned16 (x : ℕ) : ℤ := if x < 0x8000 then (x : ℤ) else (x : ℤ) - 0x10000

/-- Big-endian 16-bit encoding of a value into two bytes. -/
def enc16 (n : ℕ) : List ℕ := [n / 256, n % 256]

/-- The pack_info dictionary built by BMSDelegate.process_pack_info in
bms_reader.py (the identical extraction appears in parse_pack_info of
parse_bms_data.py and JBDBMSDelegate.parse_pack_info of
dual_bms_service.py): eight big-endian 16-bit fields unpacked at offset
4 with format string >HhHHHHHH, with the documented divide-by-100
scaling and the guarded charge-level quotient. -/
structure PackInfoDict where
  volts : ℚ
  amps : ℚ
  remain : ℚ
  capacity : ℚ
  cycles : ℕ
  mdate : ℕ
  balance1 : ℕ
  balance2 : ℕ
  watts : ℚ
  charge_level : ℚ
deriving DecidableEq

/-- BMSDelegate.process_pack_info of bms_reader.py.  struct.unpack_from
with format >HhHHHHHH at offset 4 needs 20 bytes of buffer; on a shorter
buffer Python raises struct.error which the surrounding except clause
swallows, so the model returns none there. -/
def process_pack_info (data : List ℕ) : Option PackInfoDict :=
  if 20 ≤ data.length then
    let voltsRaw := be16 (data.getD 4 0) (data.getD 5 0)
    let ampsRaw := toSigned16 (be16 (data.getD 6 0) (data.getD 7 0))
    let remainRaw := be16 (data.getD 8 0) (data.getD 9 0)
    let capacityRaw := be16 (data.getD 10 0) (data.getD 11 0)
    let cyclesRaw := be16 (data.getD 12 0) (data.getD 13 0)
    let mdateRaw := be16 (data.getD 14 0) (data.getD 15 0)
    let balance1Raw := be16 (data.getD 16 0) (data.getD 17 0)
    let balance2Raw := be16 (data.getD 18 0) (data.getD 19 0)
    some
      { volts := (voltsRaw : ℚ) / 100
        amps := (ampsRaw : ℚ) / 100
        remain := (remainRaw : ℚ) / 100
        capacity := (capacityRaw : ℚ) / 100
        cycles := cyclesRaw
        mdate := mdateRaw
        balance1 := balance1Raw
        balance2 := balance2Raw
        watts := ((voltsRaw : ℚ) / 100) * ((ampsRaw : ℚ) / 100)
        charge_level :=
          if 0 < capacityRaw then (remainRaw : ℚ) / (capacityRaw : ℚ) * 100 else 0 }
  else
    none

/-- parse_cell_voltages of parse_bms_data.py (the identical logic is
JBDBMSDelegate.parse_cell_voltages in dual_bms_service.py): guard
len(data) >= 20, unpack eight big-endian 16-bit cell readings at offset
4, keep the strictly positive ones in order, divide each by 1000. -/
def parse_cell_voltages (data : List ℕ) : Option (List ℚ) :=
  if 20 ≤ data.length then
    let cells :=
      [be16 (data.getD 4 0) (data.getD 5 0),
       be16 (data.getD 6 0) (data.getD 7 0),
       be16 (data.getD 8 0) (data.getD 9 0),
       be16 (data.getD 10 0) (data.getD 11 0),
       be16 (data.getD 12 0) (data.getD 13 0),
       be16 (data.getD 14 0) (data.getD 15 0),
       be16 (data.getD 16 0) (data.getD 17 0),
       be16 (data.getD 18 0) (data.getD 19 0)]
    some ((cells.filter (fun c => 0 < c)).map (fun c => (c : ℚ) / 1000))
  else
    none

/-- The sample response analysed by parse_bms_data.py:
hex dd03001d053500001a25215300072b0f00000000. -/
def sample_response : List ℕ :=
  [0xdd, 0x03, 0x00, 0x1d, 0x05, 0x35, 0x00, 0x00, 0x1a, 0x25,
   0x21, 0x53, 0x00, 0x07, 0x2b, 0x0f, 0x00, 0x00, 0x00, 0x00]

/-- Cell status classification from BMSDelegate.update_battery_data in
bms_reader.py: below 3.0 V critical, below 3.2 V or above 4.1 V warning,
otherwise normal.  The voltage is raw millivolts / 1000; on that grid
the Python double comparisons against the literals 3.0, 3.2 and 4.1
agree with exact rational comparison. -/
def cell_status (v : ℚ) : String :=
  if v < 3 then "critical"
  else if v < 16 / 5 ∨ 41 / 10 < v then "warning"
  else "normal"

/-- One element of the battery list built by update_battery_data,
matching the BatteryData dataclass of bms_reader.py. -/
structure UIBattery where
  batteryNumber : ℕ
  voltage : ℚ
  amperage : ℚ
  chargeLevel : ℚ
  temperature : Option ℚ
  status : String
  track : String
  trackPosition : ℕ
deriving DecidableEq

/-- BMSDelegate.update_battery_data of bms_reader.py: take at most the
first four raw cell readings, keep the strictly positive ones, and build
one UIBattery per kept cell.  amps, charge_level and temp1 come from the
previously stored pack_info dictionary and are passed as parameters. -/
def update_battery_data (track : String) (cell_voltages : List ℕ)
    (amps charge_level : ℚ) (temp1 : Option ℚ) : List UIBattery :=
  let cell_count := min cell_voltages.length 4
  (List.range cell_count).filterMap fun i =>
    let raw := cell_voltages.getD i 0
    if 0 < raw then
      let v : ℚ := (raw : ℚ) / 1000
      some
        { batteryNumber := i + 1 + (if track = "right" then 4 else 0)
          voltage := v
          amperage := amps / (cell_count : ℚ)
          chargeLevel := charge_level
          temperature := temp1
          status := cell_status v
          track := track
          trackPosition := i + 1 }
    else
      none

/-- Response validation shared by JBDBMSReader.get_basic_info and
JBDBMSReader.get_cell_voltages in dual_bms_service.py: the response is
rejected only when it is shorter than 4 bytes, does not start with
0xDD, its second byte is not 0x00, or it does not end with 0x77.  No
checksum is computed or compared anywhere on the receive path. -/
def validate_response (data : List ℕ) : Bool :=
  decide (4 ≤ data.length) && (data.head? == some 0xDD) &&
    (data.get? 1 == some 0x00) && (data.getLast? == some 0x77)

/-- Fields extracted by JBDBMSReader.get_basic_info in
dual_bms_service.py. -/
structure BasicInfo where
  voltage : ℚ
  current : ℚ
  remaining_capacity : ℚ
  nominal_capacity : ℚ
  soc : ℕ
deriving DecidableEq

/-- JBDBMSReader.get_basic_info in dual_bms_service.py, receive side:
validate the response shape, then read big-endian 16-bit fields starting
at position 3.  Reading nominal capacity touches data[10]; on a shorter
buffer Python raises IndexError which the except clause turns into None,
so the model additionally requires 11 bytes.  The one-byte SOC at
position 20 is explicitly guarded in the source (0 when absent). -/
def get_basic_info (data : List ℕ) : Option BasicInfo :=
  if validate_response data && decide (11 ≤ data.length) then
    let totalVRaw := be16 (data.getD 3 0) (data.getD 4 0)
    let currRaw := be16 (data.getD 5 0) (data.getD 6 0)
    let resCapRaw := be16 (data.getD 7 0) (data.getD 8 0)
    let nomCapRaw := be16 (data.getD 9 0) (data.getD 10 0)
    some
      { voltage := (totalVRaw : ℚ) / 100
        current := (toSigned16 currRaw : ℚ) / 100
        remaining_capacity := (resCapRaw : ℚ) / 100
        nominal_capacity := (nomCapRaw : ℚ) / 100
        soc := data.getD 20 0 }
  else
    none

/-- The basic-info request hardcoded in JBDBMSReader.get_basic_info
(dual_bms_service.py line 261). -/
def basic_info_cmd : List ℕ := [0xDD, 0xA5, 0x03, 0x00, 0xFF, 0xFD, 0x77]

/-- The cell-voltages request hardcoded in JBDBMSReader.get_cell_voltages
(dual_bms_service.py line 319) and in OverkillBMSReader.read_bms_data
(bms_reader.py line 255). -/
def cell_voltages_cmd : List ℕ := [0xDD, 0xA5, 0x04, 0x00, 0xFF, 0xFC, 0x77]

/-- Request frame layout from the wire-protocol description:
DD A5 cmd 00 crcHi crcLo 77. -/
def buildRequest (cmd ck : ℕ) : List ℕ :=
  [0xDD, 0xA5, cmd % 256, 0x00, ck / 256 % 256, ck % 256, 0x77]

/-- Modelled from the spec: the request checksum formula exactly as the
spec words it, 0x10000 minus the sum of the length byte and the payload
bytes, masked to 16 bits.  No checksum is computed anywhere in the
source (requests are hardcoded byte strings), so this definition follows
the spec text. -/
def claimRequestChecksum (lenByte : ℕ) (payload : List ℕ) : ℕ :=
  (0x10000 - (lenByte + payload.sum)) % 0x10000

/-- The JBD request checksum that actually reproduces the hardcoded
commands: 0x10000 minus the sum of the command byte, the length byte and
the payload bytes, masked to 16 bits. -/
def jbdRequestChecksum (cmd lenByte : ℕ) (payload : List ℕ) : ℕ :=
  (0x10000 - (cmd + lenByte + payload.sum)) % 0x10000

/-- Modelled from the spec: full-frame validity as worded by the
validateFrame description (no function in the source validates a
response checksum) — length at least 4, header byte 0xDD, trailer byte
0x77, and the two bytes before the trailer equal to the two's-complement
sum of header-through-payload masked to 16 bits. -/
def specFrameChecksum (f : List ℕ) : ℕ :=
  (0x10000 - (f.take (f.length - 3)).sum) % 0x10000

/-- Modelled from the spec: validateFrame acceptance, see
specFrameChecksum. -/
def specFrameValid (f : List ℕ) : Bool :=
  decide (4 ≤ f.length) && (f.head? == some 0xDD) && (f.getLast? == some 0x77) &&
    (f.get? (f.length - 3) == some (specFrameChecksum f / 256)) &&
    (f.get? (f.length - 2) == some (specFrameChecksum f % 256))

/-- JBDBMSDelegate.handleNotification in dual_bms_service.py, as a
transition on the stored partial-message buffer.  Input: current buffer
and the delivered chunk; output: new buffer and the list (empty or
singleton) of byte strings handed to process_bms_data.  hex_data == '00'
holds exactly for the one-byte chunk 0x00; hex_data.startswith('dd')
holds exactly when the first byte is 0xDD; len(hex_data) < 40 holds
exactly when the chunk is shorter than 20 bytes. -/
def handleNotification (buf chunk : List ℕ) : List ℕ × List (List ℕ) :=
  if chunk = [0x00] then (buf, [])
  else if chunk.head? = some 0xDD ∧ chunk.length < 20 then (chunk, [])
  else if buf ≠ [] then ([], [buf ++ chunk])
  else ([], [chunk])

/-- Feed a sequence of chunks through handleNotification in arrival
order, collecting every byte string handed to process_bms_data. -/
def feedChunks (chunks : List (List ℕ)) (buf : List ℕ) : List ℕ × List (List ℕ) :=
  match chunks with
  | [] => (buf, [])
  | c :: rest =>
      let r := handleNotification buf c
      let r2 := feedChunks rest r.1
      (r2.1, r.2 ++ r2.2)

/-- The BatteryData dataclass of dual_bms_service.py (the per-track
stored telemetry snapshot). -/
structure BatteryData where
  track : String
  voltage : ℚ := 0
  current : ℚ := 0
  remaining_capacity : ℚ := 0
  total_capacity : ℚ := 0
  soc : ℚ := 0
  cycles : ℕ := 0
  cell_voltages : List ℚ := []
  last_update : Option String := none
  connection_status : String := "disconnected"
deriving DecidableEq

/-- The dictionary returned by JBDBMSReader.get_all_data on success. -/
structure AllData where
  voltage : ℚ
  current : ℚ
  soc : ℚ
  remaining_capacity : ℚ
  nominal_capacity : ℚ
  cell_voltages : List ℚ
  timestamp : String
deriving DecidableEq

/-- Outcome of one polling attempt in DualBMSService.poll_single_bms:
connect() returned False; connect() succeeded but get_all_data returned
None (any transport or decode failure inside it); an exception escaped;
or a successfully decoded data dictionary. -/
inductive PollOutcome where
  | connectFailed
  | noData
  | pollError (msg : String)
  | success (d : AllData)
deriving DecidableEq

/-- DualBMSService.poll_single_bms in dual_bms_service.py, as a function
from the previously stored snapshot and the cycle outcome to the new
stored snapshot.  On success the snapshot is rebuilt wholesale (cycles
is not passed, so it takes its dataclass default 0); on every failure
outcome only connection_status is assigned. -/
def poll_single_bms (track : String) (old : BatteryData) (o : PollOutcome) :
    BatteryData :=
  match o with
  | .success d =>
      { track := track
        voltage := d.voltage
        current := d.current
        remaining_capacity := d.remaining_capacity
        total_capacity := d.nominal_capacity
        soc := d.soc
        cycles := 0
        cell_voltages := d.cell_voltages
        last_update := some d.timestamp
        connection_status := "connected" }
  | .noData => { old with connection_status := "no_data" }
  | .connectFailed => { old with connection_status := "connection_failed" }
  | .pollError _ => { old with connection_status := "error" }

end BtBms

namespace BtBms

/-- Claim C3, counterexample: decoding the sample byte sequence
dd03001d053500001a25215300072b0f00000000 as a pack-info frame yields a
pack voltage of 13.33 V (raw big-endian 0x0535 = 1333 at offset 4,
divided by 100), which is more than 7 V away from the claimed 21.00 V. -/
theorem C3_sample_voltage_not_21 :
    (process_pack_info sample_response).map PackInfoDict.volts = some (1333 / 100) ∧
    (1333 / 100 : ℚ) + 7 < 21 := by
  constructor
  · norm_num [process_pack_info, sample_response, be16, toSigned16]
  · norm_num

/-- Claim C3, amended: decoding the sample byte sequence
dd03001d053500001a25215300072b0f00000000 as a pack-info frame with the
documented big-endian extraction at offset 4 and the documented division
by 100 yields a pack voltage of 13.33 V, current 0 A, remaining capacity
66.93 Ah, nominal capacity 85.31 Ah, cycle count 7, manufacture date raw
0x2b0f and zero balance bitmasks. -/
theorem C3_sample_decodes_to_13_33V :
    process_pack_info sample_response =
      some { volts := 1333 / 100, amps := 0, remain := 6693 / 100,
             capacity := 8531 / 100, cycles := 7, mdate := 11023,
             balance1 := 0, balance2 := 0, watts := 0,
             charge_level := 6693 / 8531 * 100 } := by
  norm_num [process_pack_info, sample_response, be16, toSigned16]

/-- Claim C7, counterexample: the checksum formula exactly as claimed,
0x10000 minus the sum of the length byte and the payload bytes masked to
16 bits, gives 0x0000 for both sample requests (length byte 0x00, empty
payload), so it produces DD A5 03 00 00 00 77 and DD A5 04 00 00 00 77,
not the commands DD A5 03 00 FF FD 77 and DD A5 04 00 FF FC 77 that the
program writes. -/
theorem C7_length_payload_formula_fails :
    claimRequestChecksum 0x00 [] = 0 ∧
    buildRequest 0x03 (claimRequestChecksum 0x00 []) ≠ basic_info_cmd ∧
    buildRequest 0x04 (claimRequestChecksum 0x00 []) ≠ cell_voltages_cmd := by
  decide

/-- Claim C7, amended: the request checksum formula 0x10000 minus the
sum of the command byte, the length byte and the payload bytes, masked
to 16 bits, produces exactly the two sample commands the program
writes: DD A5 03 00 FF FD 77 for command 0x03 and DD A5 04 00 FF FC 77
for command 0x04. -/
theorem C7_command_checksum_matches_hardcoded :
    buildRequest 0x03 (jbdRequestChecksum 0x03 0x00 []) = basic_info_cmd ∧
    buildRequest 0x04 (jbdRequestChecksum 0x04 0x00 []) = cell_voltages_cmd := by
  decide

/-- Claim C9: for every reassembler state, delivering the lone one-byte
keep-alive chunk 0x00 produces no frame for processing and leaves the
partial-message buffer exactly as it was. -/
theorem C9_handshake_is_ignored (buf : List ℕ) :
    handleNotification buf [0x00] = (buf, []) := by
  simp [handleNotification]

/-- Claim C6, counterexample: at cell voltage 3.1 V the code classifies
the cell as warning, while the claimed classification (warning below
3.0 V or above 4.1 V, critical below 2.5 V, otherwise normal) puts
3.1 V in none of the warning or critical ranges, hence normal. -/
theorem C6_3_1V_is_warning_not_normal :
    cell_status (31 / 10) = "warning" ∧
    ¬ ((31 / 10 : ℚ) < 3) ∧ ¬ ((41 / 10 : ℚ) < 31 / 10) ∧
    ¬ ((31 / 10 : ℚ) < 5 / 2) ∧
    ("warning" : String) ≠ "normal" := by
  refine ⟨?_, by norm_num, by norm_num, by norm_num, by decide⟩
  rw [cell_status]; norm_num

/-- Claim C6, amended: cell status classification is a pure function of
the cell voltage with the thresholds the code uses: below 3.0 V the cell
is critical, from 3.0 V up to (excluding) 3.2 V or above 4.1 V it is
warning, and from 3.2 V through 4.1 V it is normal; in particular 3.5 V
is normal, 4.15 V is warning and 2.9 V is critical. -/
theorem C6_classification_thresholds (v : ℚ) :
    (cell_status v = "critical" ↔ v < 3) ∧
    (cell_status v = "warning" ↔ 3 ≤ v ∧ (v < 16 / 5 ∨ 41 / 10 < v)) ∧
    (cell_status v = "normal" ↔ 16 / 5 ≤ v ∧ v ≤ 41 / 10) ∧
    cell_status (7 / 2) = "normal" ∧
    cell_status (83 / 20) = "warning" ∧
    cell_status (29 / 10) = "critical" := by
  refine ⟨?_, ?_, ?_, ?_, ?_, ?_⟩
  · rw [cell_status]; split_ifs with h1 h2
    · exact ⟨fun _ => h1, fun _ => rfl⟩
    · exact ⟨fun h => absurd h (by decide), fun h => absurd h h1⟩
    · exact ⟨fun h => absurd h (by decide), fun h => absurd h h1⟩
  · rw [cell_status]; split_ifs with h1 h2
    · exact ⟨fun h => absurd h (by decide), fun h => absurd h1 (not_lt.mpr h.1)⟩
    · exact ⟨fun _ => ⟨le_of_not_lt h1, h2⟩, fun _ => rfl⟩
    · exact ⟨fun h => absurd h (by decide), fun h => absurd h.2 h2⟩
  · rw [cell_status]; split_ifs with h1 h2
    · refine ⟨fun h => absurd h (by decide),
        fun h => absurd h1 (not_lt.mpr (by linarith [h.1]))⟩
    · refine ⟨fun h => absurd h (by decide), fun h => ?_⟩
      rcases h2 with h2 | h2
      · exact absurd h2 (not_lt.mpr h.1)
      · exact absurd h2 (not_lt.mpr h.2)
    · push_neg at h2
      exact ⟨fun _ => ⟨h2.1, h2.2⟩, fun _ => rfl⟩
  · rw [cell_status]; norm_num
  · rw [cell_status]; norm_num
  · rw [cell_status]; norm_num

end BtBms

namespace BtBms

/-- Claim C4: for every cell-voltages frame whose payload encodes eight
big-endian 16-bit raw readings at offset 4, the decode returns exactly
the strictly positive raw values, in original order, each divided by
1000; zero-valued raw readings are excluded.  In particular eight
nonzero cells give eight values in order and 4 nonzero followed by 4
zero cells give a sequence of length 4. -/
theorem C4_cell_decode_keeps_nonzero_in_order (b0 b1 b2 b3 : ℕ) (rs : List ℕ)
    (hlen : rs.length = 8) (hbytes : ∀ r ∈ rs, r < 65536) :
    parse_cell_voltages ([b0, b1, b2, b3] ++ rs.flatMap enc16) =
      some ((rs.filter (fun c => 0 < c)).map (fun c => (c : ℚ) / 1000)) := by
  match rs, hlen with
  | [a1, a2, a3, a4, a5, a6, a7, a8], _ =>
    simp [parse_cell_voltages, enc16, be16, List.getD, Nat.div_add_mod']

/-- Witness for C4 at a concrete frame: four nonzero cells followed by
four zero cells decode to the four leading values. -/
theorem C4_concrete_frame_decodes :
    parse_cell_voltages
        ([0xDD, 0x04, 0x00, 0x10] ++ [3500, 3520, 3480, 3510, 0, 0, 0, 0].flatMap enc16) =
      some (([3500, 3520, 3480, 3510, 0, 0, 0, 0].filter (fun c => 0 < c)).map
        (fun c => (c : ℚ) / 1000)) :=
  C4_cell_decode_keeps_nonzero_in_order 0xDD 0x04 0x00 0x10
    [3500, 3520, 3480, 3510, 0, 0, 0, 0] rfl (by decide)

/-- The pack-info record decoded from the sample response. -/
def samplePackInfo : PackInfoDict :=
  { volts := 1333 / 100, amps := 0, remain := 6693 / 100, capacity := 8531 / 100,
    cycles := 7, mdate := 11023, balance1 := 0, balance2 := 0, watts := 0,
    charge_level := 6693 / 8531 * 100 }

/-- Claim C5: for every decoded pack-info frame the charge level is
remaining capacity divided by nominal capacity times 100 whenever the
nominal capacity is positive, and exactly 0 when the nominal capacity is
zero; division by zero never occurs because the quotient is guarded by
the capacity test. -/
theorem C5_soc_guarded_by_capacity (data : List ℕ) (pInfo : PackInfoDict)
    (h : process_pack_info data = some pInfo) :
    (0 < pInfo.capacity → pInfo.charge_level = pInfo.remain / pInfo.capacity * 100) ∧
    (pInfo.capacity = 0 → pInfo.charge_level = 0) := by
  simp only [process_pack_info] at h
  split_ifs at h with hl hcap
  · rw [Option.some.injEq] at h
    subst h
    simp only
    have hne : (be16 (data.getD 10 0) (data.getD 11 0) : ℚ) ≠ 0 := by
      exact_mod_cast Nat.pos_iff_ne_zero.mp hcap
    constructor
    · intro _
      field_simp
    · intro hc
      rcases div_eq_zero_iff.mp hc with h0 | h0
      · exact absurd h0 hne
      · norm_num at h0
  · rw [Option.some.injEq] at h
    subst h
    simp only
    have hz : be16 (data.getD 10 0) (data.getD 11 0) = 0 := by omega
    constructor
    · intro hc
      rw [hz] at hc
      norm_num at hc
    · intro _
      trivial

/-- Witness for C5: the sample pack-info response decodes with positive
nominal capacity 85.31 Ah and the guarded charge-level equalities hold
there. -/
theorem C5_sample_charge_level :
    (0 < samplePackInfo.capacity →
      samplePackInfo.charge_level = samplePackInfo.remain / samplePackInfo.capacity * 100) ∧
    (samplePackInfo.capacity = 0 → samplePackInfo.charge_level = 0) :=
  C5_soc_guarded_by_capacity sample_response samplePackInfo
    (by norm_num [process_pack_info, sample_response, be16, toSigned16, samplePackInfo])

end BtBms

namespace BtBms

/-- A 22-byte response frame that is fully valid in the spec's sense:
header 0xDD, second byte 0x00, declared payload length 0x10, sixteen
payload bytes, the two's-complement checksum 0xFDE5 of
header-through-payload, and trailer 0x77. -/
def c1frame : List ℕ :=
  [0xDD, 0x00, 0x10,
   0x05, 0x35, 0x00, 0x00, 0x1a, 0x25, 0x21, 0x53,
   0x00, 0x07, 0x2b, 0x0f, 0x00, 0x00, 0x00, 0x00,
   0xFD, 0xE5, 0x77]

/-- c1frame with the single payload byte at index 4 flipped from 0x35 to
0x36 (so its checksum no longer matches). -/
def c1frameFlipped : List ℕ :=
  [0xDD, 0x00, 0x10,
   0x05, 0x36, 0x00, 0x00, 0x1a, 0x25, 0x21, 0x53,
   0x00, 0x07, 0x2b, 0x0f, 0x00, 0x00, 0x00, 0x00,
   0xFD, 0xE5, 0x77]

/-- The basic-info read path accepts a response exactly when the
shape check passes and at least 11 bytes are present. -/
theorem isSome_get_basic_info (data : List ℕ) :
    (get_basic_info data).isSome =
      (validate_response data && decide (11 ≤ data.length)) := by
  rw [get_basic_info]
  split_ifs with h
  · simp [h]
  · rw [Bool.not_eq_true] at h
    rw [h]
    rfl

/-- Claim C1, counterexample: the frame c1frame is valid in the claimed
sense (header, trailer and header-through-payload checksum all correct);
flipping the single payload byte at index 4 invalidates its checksum,
yet frame validation still accepts the corrupted frame and the decode
silently returns a different pack voltage (13.34 V instead of 13.33 V)
rather than any checksum-mismatch error. -/
theorem C1_corrupted_payload_decoded_silently :
    specFrameValid c1frame = true ∧
    c1frameFlipped = c1frame.set 4 0x36 ∧
    specFrameValid c1frameFlipped = false ∧
    validate_response c1frameFlipped = true ∧
    (get_basic_info c1frameFlipped).map BasicInfo.voltage = some (1334 / 100) ∧
    (get_basic_info c1frame).map BasicInfo.voltage = some (1333 / 100) ∧
    ((1334 : ℚ) / 100) ≠ 1333 / 100 := by
  refine ⟨by decide, by decide, by decide, by decide, ?_, ?_, by norm_num⟩
  · norm_num [get_basic_info, validate_response, c1frameFlipped, be16, toSigned16]
  · norm_num [get_basic_info, validate_response, c1frame, be16, toSigned16]

/-- Claim C1, amended: response validation in the receive path checks
only the minimum length, the header byte 0xDD, the second byte 0x00 and
the trailer byte 0x77; no checksum is verified, so overwriting any byte
from index 2 up to (excluding) the last never changes whether the frame
is accepted or whether the decode succeeds — a corrupted payload is
decoded silently. -/
theorem C1_validation_ignores_payload_bytes (data : List ℕ) (i v : ℕ)
    (hi : 2 ≤ i) (hilen : i + 1 < data.length) :
    validate_response (data.set i v) = validate_response data ∧
    (get_basic_info (data.set i v)).isSome = (get_basic_info data).isSome := by
  have hlen : (data.set i v).length = data.length := List.length_set data i v
  have h0 : (data.set i v)[0]? = data[0]? := List.getElem?_set_ne (by omega)
  have h1 : (data.set i v)[1]? = data[1]? := List.getElem?_set_ne (by omega)
  have hlast : (data.set i v)[data.length - 1]? = data[data.length - 1]? :=
    List.getElem?_set_ne (by omega)
  have hv : validate_response (data.set i v) = validate_response data := by
    simp only [validate_response, List.head?_eq_getElem?, List.get?_eq_getElem?,
      List.getLast?_eq_getElem?, hlen, h0, h1, hlast]
  exact ⟨hv, by rw [isSome_get_basic_info, isSome_get_basic_info, hv, hlen]⟩

/-- Witness for the amended C1 at a concrete input: overwriting payload
byte 4 of c1frame with 0x99 changes neither acceptance nor decode
success. -/
theorem C1_flip_on_concrete_frame :
    validate_response (c1frame.set 4 0x99) = validate_response c1frame ∧
    (get_basic_info (c1frame.set 4 0x99)).isSome = (get_basic_info c1frame).isSome :=
  C1_validation_ignores_payload_bytes c1frame 4 0x99 (by norm_num) (by decide)

end BtBms

namespace BtBms

/-- A 27-byte response frame that is fully valid in the spec's sense:
header 0xDD, declared payload length 0x14, twenty zero payload bytes,
the two's-complement checksum 0xFF0C of header-through-payload, and
trailer 0x77. -/
def c2frame : List ℕ :=
  [0xDD, 0x03, 0x00, 0x14] ++ List.replicate 20 0 ++ [0xFF, 0x0C, 0x77]

/-- Claim C2, counterexample: splitting the valid 27-byte frame c2frame
after byte 20 and feeding the two chunks in order yields two separate
processed fragments, neither equal to the full frame, instead of exactly
one FrameReady with the full bytes — the first chunk has 20 bytes, so
the reassembler does not buffer it as a partial message but processes it
immediately. -/
theorem C2_split_at_20_yields_two_fragments :
    specFrameValid c2frame = true ∧
    (c2frame.take 20).length = 20 ∧
    feedChunks [c2frame.take 20, c2frame.drop 20] [] =
      ([], [c2frame.take 20, c2frame.drop 20]) ∧
    c2frame.take 20 ≠ c2frame ∧ c2frame.drop 20 ≠ c2frame := by
  decide

/-- Claim C2, amended: for every valid frame and every split into two
ordered chunks where the first chunk has between 1 and 19 bytes and the
second chunk does not itself begin with 0xDD while being shorter than 20
bytes, feeding the two chunks to the reassembler from an empty buffer
produces exactly one processed message whose bytes equal the original
full frame, and leaves the buffer empty. -/
theorem C2_short_first_chunk_reassembles (f : List ℕ) (k : ℕ)
    (hvalid : specFrameValid f = true)
    (hk1 : 1 ≤ k) (hk2 : k < f.length) (hk20 : k < 20)
    (hsnd : ¬ ((f.drop k).head? = some 0xDD ∧ (f.drop k).length < 20)) :
    feedChunks [f.take k, f.drop k] [] = ([], [f]) := by
  simp only [specFrameValid, Bool.and_eq_true, beq_iff_eq, decide_eq_true_eq] at hvalid
  obtain ⟨⟨⟨⟨hlen4, hhead⟩, hlast⟩, hck1⟩, hck2⟩ := hvalid
  have htake_len : (f.take k).length = k := by
    rw [List.length_take]; omega
  have hhead1 : (f.take k).head? = some 0xDD := by
    rw [List.head?_eq_getElem?, List.getElem?_take, if_pos (by omega : (0 : ℕ) < k),
      ← List.head?_eq_getElem?]
    exact hhead
  have hne1 : f.take k ≠ [0x00] := by
    intro he
    rw [he] at hhead1
    simp at hhead1
  have hstep1 : handleNotification [] (f.take k) = (f.take k, []) := by
    rw [handleNotification, if_neg hne1,
      if_pos ⟨hhead1, by rw [htake_len]; exact hk20⟩]
  have hdroplast : (f.drop k).getLast? = some 0x77 := by
    rw [List.getLast?_eq_getElem? (f.drop k), List.getElem?_drop, List.length_drop]
    rw [List.getLast?_eq_getElem? f] at hlast
    have harith : k + (f.length - k - 1) = f.length - 1 := by omega
    rw [harith]
    exact hlast
  have hne2 : f.drop k ≠ [0x00] := by
    intro he
    rw [he] at hdroplast
    simp at hdroplast
  have htkne : f.take k ≠ [] := by
    intro he
    have hlen0 := congrArg List.length he
    rw [htake_len] at hlen0
    simp at hlen0
    omega
  have hstep2 : handleNotification (f.take k) (f.drop k) = ([], [f]) := by
    rw [handleNotification, if_neg hne2, if_neg hsnd, if_pos htkne,
      List.take_append_drop]
  simp [feedChunks, hstep1, hstep2]

/-- Witness for the amended C2: splitting c2frame after byte 3 and
feeding both chunks reassembles exactly the full frame. -/
theorem C2_split_at_3_reassembles :
    feedChunks [c2frame.take 3, c2frame.drop 3] [] = ([], [c2frame]) :=
  C2_short_first_chunk_reassembles c2frame 3 (by decide) (by decide) (by decide)
    (by decide) (by decide)

/-- Claim C8: for every read cycle whose outcome is any recoverable
failure (connection failure, no data decoded, or a caught exception),
the stored telemetry snapshot keeps every previous value — voltage,
current, capacities, state of charge, cycle count, cell voltages, last
update time and track — and only the connection-status field is
updated; the old snapshot is replaced only by a successful decode. -/
theorem C8_failure_keeps_old_snapshot (track : String) (old : BatteryData)
    (o : PollOutcome) (hfail : ∀ d, o ≠ PollOutcome.success d) :
    (poll_single_bms track old o).voltage = old.voltage ∧
    (poll_single_bms track old o).current = old.current ∧
    (poll_single_bms track old o).remaining_capacity = old.remaining_capacity ∧
    (poll_single_bms track old o).total_capacity = old.total_capacity ∧
    (poll_single_bms track old o).soc = old.soc ∧
    (poll_single_bms track old o).cycles = old.cycles ∧
    (poll_single_bms track old o).cell_voltages = old.cell_voltages ∧
    (poll_single_bms track old o).last_update = old.last_update ∧
    (poll_single_bms track old o).track = old.track := by
  cases o with
  | success d => exact absurd rfl (hfail d)
  | noData => exact ⟨rfl, rfl, rfl, rfl, rfl, rfl, rfl, rfl, rfl⟩
  | connectFailed => exact ⟨rfl, rfl, rfl, rfl, rfl, rfl, rfl, rfl, rfl⟩
  | pollError msg => exact ⟨rfl, rfl, rfl, rfl, rfl, rfl, rfl, rfl, rfl⟩

/-- A previously stored snapshot used to witness C8. -/
def c8old : BatteryData :=
  { track := "left", voltage := 1333 / 100, current := 0,
    remaining_capacity := 6693 / 100, total_capacity := 8531 / 100,
    soc := 785 / 10, cycles := 7, cell_voltages := [3333 / 1000],
    last_update := some "t0", connection_status := "connected" }

/-- Witness for C8: a failed connection leaves every telemetry value of
the concrete stored snapshot unchanged. -/
theorem C8_connect_failure_on_concrete_snapshot :
    (poll_single_bms "left" c8old PollOutcome.connectFailed).voltage = c8old.voltage ∧
    (poll_single_bms "left" c8old PollOutcome.connectFailed).current = c8old.current ∧
    (poll_single_bms "left" c8old PollOutcome.connectFailed).remaining_capacity =
      c8old.remaining_capacity ∧
    (poll_single_bms "left" c8old PollOutcome.connectFailed).total_capacity =
      c8old.total_capacity ∧
    (poll_single_bms "left" c8old PollOutcome.connectFailed).soc = c8old.soc ∧
    (poll_single_bms "left" c8old PollOutcome.connectFailed).cycles = c8old.cycles ∧
    (poll_single_bms "left" c8old PollOutcome.connectFailed).cell_voltages =
      c8old.cell_voltages ∧
    (poll_single_bms "left" c8old PollOutcome.connectFailed).last_update =
      c8old.last_update ∧
    (poll_single_bms "left" c8old PollOutcome.connectFailed).track = c8old.track :=
  C8_failure_keeps_old_snapshot "left" c8old PollOutcome.connectFailed
    (fun _ h => PollOutcome.noConfusion h)

/-- Claim C10: every published battery list has at most 4 entries, and
each entry comes from a cell index below 4, with trackPosition equal to
that cell index plus 1, voltage equal to that cell's raw reading over
1000, and batteryNumber equal to trackPosition for the left track and
trackPosition plus 4 for the right track. -/
theorem C10_published_list_bounds (track : String) (cells : List ℕ)
    (amps charge : ℚ) (t : Option ℚ) :
    (update_battery_data track cells amps charge t).length ≤ 4 ∧
    ∀ b ∈ update_battery_data track cells amps charge t,
      1 ≤ b.trackPosition ∧ b.trackPosition ≤ 4 ∧
      b.voltage = (cells.getD (b.trackPosition - 1) 0 : ℚ) / 1000 ∧
      b.batteryNumber = b.trackPosition + (if track = "right" then 4 else 0) := by
  constructor
  · simp only [update_battery_data]
    calc (List.filterMap _ (List.range (min cells.length 4))).length
        ≤ (List.range (min cells.length 4)).length := List.length_filterMap_le _ _
      _ = min cells.length 4 := List.length_range _
      _ ≤ 4 := min_le_right _ _
  · intro b hb
    simp only [update_battery_data, List.mem_filterMap, List.mem_range] at hb
    obtain ⟨i, hi, hbi⟩ := hb
    have hi4 : i < 4 := lt_of_lt_of_le hi (min_le_right _ _)
    by_cases hpos : 0 < cells.getD i 0
    · rw [if_pos hpos, Option.some.injEq] at hbi
      subst hbi
      exact ⟨Nat.succ_le_succ (Nat.zero_le i), hi4, rfl, rfl⟩
    · rw [if_neg hpos] at hbi
      exact absurd hbi (by simp)

/-- The single battery published for the one-cell list 3500 mV on the
left track. -/
def c10battery : UIBattery :=
  { batteryNumber := 1, voltage := 7 / 2, amperage := 0, chargeLevel := 0,
    temperature := none, status := "normal", track := "left", trackPosition := 1 }

/-- Witness for C10: the single-cell list 3500 mV on the left track
publishes one battery at trackPosition 1 with batteryNumber 1 and
voltage 3.5 V. -/
theorem C10_single_cell_left_track :
    (update_battery_data "left" [3500] 0 0 none).length ≤ 4 ∧
    (1 ≤ c10battery.trackPosition ∧ c10battery.trackPosition ≤ 4 ∧
     c10battery.voltage =
       (([3500] : List ℕ).getD (c10battery.trackPosition - 1) 0 : ℚ) / 1000 ∧
     c10battery.batteryNumber =
       c10battery.trackPosition + (if ("left" : String) = "right" then 4 else 0)) :=
  ⟨(C10_published_list_bounds "left" [3500] 0 0 none).1,
   (C10_published_list_bounds "left" [3500] 0 0 none).2 c10battery
     (by norm_num [update_battery_data, c10battery, cell_status]; decide)⟩

end BtBms
